import Mathlib

/-!
Shallow embedding of the TikTokSales live-commerce intent-correlation
pipeline.

Sources embedded here:
* `src/services/chat-product/app.py` — `process_chat`, `_queue_comment_internal`,
  `process_user_queue`;
* `src/services/worker/worker.py` — `process_comment`, `get_active_queue_keys`.

Timestamps are modelled as `Nat` (the code compares ISO-8601 strings /
timestamp columns, whose comparison is the temporal order); prices as `ℚ`
(the code uses Python floats only to multiply a catalog price by an integer
quantity); each outbound HTTP call is modelled by an explicit outcome value
(success status with parsed body, non-success status, or raised exception),
matching the try/except structure of the code.
-/

namespace TikTokSales

/-- A row of the `streamer_frames` table: written by the frame collector,
read by the correlator. -/
structure FrameRecord where
  streamer : String
  frame_timestamp : Nat
  minio_url : String
deriving DecidableEq, Repr

/-- Rows of `streamer_frames` for streamer `s` with
`frame_timestamp <= ts` (the `.eq("streamer", s).lte("frame_timestamp", ts)`
query of `process_user_queue`). -/
def framesAtOrBefore (frames : List FrameRecord) (s : String) (ts : Nat) :
    List FrameRecord :=
  frames.filter fun r => decide (r.streamer = s ∧ r.frame_timestamp ≤ ts)

/-- Rows of `streamer_frames` for streamer `s` with
`frame_timestamp >= ts` (the fallback `.gte` query of `process_user_queue`). -/
def framesAtOrAfter (frames : List FrameRecord) (s : String) (ts : Nat) :
    List FrameRecord :=
  frames.filter fun r => decide (r.streamer = s ∧ ts ≤ r.frame_timestamp)

/-- `.order("frame_timestamp", desc=True).limit(1)`: the row with the
greatest `frame_timestamp` (first one among equal timestamps). -/
def argmaxTs : List FrameRecord → Option FrameRecord
  | [] => none
  | r :: rs =>
    match argmaxTs rs with
    | none => some r
    | some m => if r.frame_timestamp < m.frame_timestamp then some m else some r

/-- `.order("frame_timestamp", desc=False).limit(1)`: the row with the
least `frame_timestamp` (first one among equal timestamps). -/
def argminTs : List FrameRecord → Option FrameRecord
  | [] => none
  | r :: rs =>
    match argminTs rs with
    | none => some r
    | some m => if m.frame_timestamp < r.frame_timestamp then some m else some r

/-- Frame selection of `process_user_queue` (app.py lines 534-561):
nearest frame at-or-before `ts`, else nearest frame at-or-after `ts`. -/
def selectFrame (frames : List FrameRecord) (s : String) (ts : Nat) :
    Option FrameRecord :=
  match argmaxTs (framesAtOrBefore frames s ts) with
  | some r => some r
  | none => argminTs (framesAtOrAfter frames s ts)

/-- One entry of a per-client Redis list `chat:queue:{streamer}:{client}`:
either a JSON object (whose `message` defaults to `""` and whose
`timestamp`, when present and truthy, is a time value) or a malformed
payload kept as its raw string. -/
inductive QueueEntry where
  | parsed (message : String) (timestamp : Option Nat)
  | malformed (raw : String)
deriving DecidableEq, Repr

/-- Text contributed by an entry to the combined classifier input:
`msg.get("message", "")` for JSON entries, `str(msg_raw)` otherwise. -/
def entryMessage : QueueEntry → String
  | .parsed m _ => m
  | .malformed raw => raw

/-- The timestamp an entry carries, if any. -/
def entryTimestamp : QueueEntry → Option Nat
  | .parsed _ t => t
  | .malformed _ => none

/-- The `first_timestamp` loop of `process_user_queue` (app.py lines
471-481): the timestamp of the first entry, in queue order, that parses
and carries a timestamp. -/
def firstTimestamp : List QueueEntry → Option Nat
  | [] => none
  | e :: rest =>
    match entryTimestamp e with
    | some t => some t
    | none => firstTimestamp rest

/-- Modelled from the spec (§4.5 step 1), for comparison with
`firstTimestamp`: the timestamp of the earliest message in the drained
batch that carried a timestamp, i.e. the minimum carried timestamp. -/
def specEarliestTimestamp (entries : List QueueEntry) : Option Nat :=
  (entries.filterMap entryTimestamp).min?

/-- A row of the `products` table, as selected by the correlator
(`id,name,price,description,image_url`). -/
structure Product where
  id : String
  name : String
  price : ℚ
  description : String
  image_url : String
deriving DecidableEq, Repr

/-- The `matched_product` dictionary built by `process_chat` and
`process_user_queue`. -/
structure MatchedProduct where
  id : String
  name : String
  price : ℚ
  description : String
  image_url : String
  cantidad : Int
  total : ℚ
deriving DecidableEq, Repr

/-- app.py lines 589-597: the `matched_product` dictionary with
`total = float(product price) * cantidad`. -/
def buildMatchedProduct (p : Product) (cantidad : Int) : MatchedProduct :=
  { id := p.id, name := p.name, price := p.price, description := p.description,
    image_url := p.image_url, cantidad := cantidad,
    total := p.price * (cantidad : ℚ) }

/-- `.eq("id", product_id).limit(1)` on the `products` table. -/
def findProduct (products : List Product) (pid : String) : Option Product :=
  products.find? fun p => p.id == pid

/-- Outcome of the n8n intent-classification webhook call: a 200 response
whose first item carries optional `intent` and `cantidad` fields, a
non-success status, or a raised exception (connection error / timeout). -/
inductive WebhookOutcome where
  | success (intent : Option String) (cantidad : Option Int)
  | badStatus (status : Nat)
  | failure
deriving DecidableEq, Repr

/-- Python's `.lower()`, character-wise (the intents compared against it
are ASCII literals). -/
def pyLower (s : String) : String := ⟨s.data.map Char.toLower⟩

/-- The intent/cantidad extraction of `process_chat` and
`process_user_queue`: on a 200 response,
`intent = item.get("intent", "no").lower()` and
`cantidad = int(item.get("cantidad", 0))`; on a non-success status or an
exception, the initial values `("no", 0)` are kept. -/
def parseWebhook : WebhookOutcome → String × Int
  | .success i c => (pyLower (i.getD "no"), c.getD 0)
  | .badStatus _ => ("no", 0)
  | .failure => ("no", 0)

/-- Outcome of the vision-service `/match_product` call made by the
chat-product service: 200 with an optional `productId`, non-success
status, or a raised exception. -/
inductive VisionOutcome where
  | success (productId : Option String)
  | badStatus (status : Nat)
  | failure
deriving DecidableEq, Repr

/-- Outbound calls made by the chat-product service, recorded as a trace. -/
inductive ExtCall where
  | classifier (text : String)
  | vision (frameUrl : String)
deriving DecidableEq, Repr

/-- Environment of one chat-product request: the outcomes the external
collaborators would produce, the `streamer_frames` and `products` tables,
whether Supabase was initialized, and the current server time. -/
structure PipelineEnv where
  webhook : WebhookOutcome
  vision : VisionOutcome
  frames : List FrameRecord
  products : List Product
  dbConnected : Bool
  now : Nat
deriving Repr

def defaultReplyText : String := "¿En qué puedo ayudarte?"

def emptyQueueText : String := "No hay mensajes en la cola para procesar."

def noMatchBatchText : String :=
  "Detecté intención de compra pero no pude identificar el producto. ¿Podrías ser más específico?"

def errorBatchText : String := "Hubo un problema al buscar el producto. Intenta de nuevo."

/-- app.py line 599: the confirmation prompt of the batched path. -/
def confirmBatchText (p : Product) (cantidad : Int) : String :=
  "¡Encontré el producto! " ++ p.name ++ " - $" ++ toString p.price ++
    ". ¿Deseas comprar " ++ toString cantidad ++ " unidad(es)?"

/-- The buying-intent branch of `process_user_queue` (app.py lines
528-606): select the frame nearest `firstTs` (only when Supabase is up),
call the vision service with its `minio_url`, resolve the product, build
the payment-ready summary; any exception degrades to an apology text.
Returns (matched_product, payment_ready, response_text, vision calls). -/
def batchIntentFlow (env : PipelineEnv) (streamer : String) (firstTs : Nat)
    (cantidad : Int) : Option MatchedProduct × Bool × String × List ExtCall :=
  match (if env.dbConnected then selectFrame env.frames streamer firstTs else none) with
  | none => (none, false, noMatchBatchText, [])
  | some fr =>
    match env.vision with
    | .failure => (none, false, errorBatchText, [.vision fr.minio_url])
    | .badStatus _ => (none, false, noMatchBatchText, [.vision fr.minio_url])
    | .success pid? =>
      match pid? with
      | none => (none, false, noMatchBatchText, [.vision fr.minio_url])
      | some pid =>
        if pid = "" then (none, false, noMatchBatchText, [.vision fr.minio_url])
        else
          match findProduct env.products pid with
          | none => (none, false, noMatchBatchText, [.vision fr.minio_url])
          | some p =>
            (some (buildMatchedProduct p cantidad), true, confirmBatchText p cantidad,
              [.vision fr.minio_url])

/-- A comment as validated by the `IncomingComment` model: after the
validator, `timestamp` is always present. -/
structure Comment where
  streamer : String
  client : String
  timestamp : Nat
  message : String
deriving DecidableEq, Repr

/-- The per-(source,recipient) list key `chat:queue:STREAMER:CLIENT`. -/
def queueKey (streamer client : String) : String :=
  "chat:queue:" ++ streamer ++ ":" ++ client

/-- The Redis state the chat-product service uses: the global
`comments_stream` and the per-client lists. -/
structure RedisState where
  stream : List Comment
  queues : List (String × List QueueEntry)
deriving DecidableEq, Repr

/-- The list stored at key `k` (empty when absent). -/
def lookupQueue (qs : List (String × List QueueEntry)) (k : String) :
    List QueueEntry :=
  match qs.find? (fun kv => kv.1 == k) with
  | some kv => kv.2
  | none => []

/-- `LRANGE key 0 -1`: the full list at `key` (empty when absent). -/
def getQueue (st : RedisState) (k : String) : List QueueEntry :=
  lookupQueue st.queues k

/-- `RPUSH key e`: append to the list at `k`, creating it when absent. -/
def pushQueue (qs : List (String × List QueueEntry)) (k : String)
    (e : QueueEntry) : List (String × List QueueEntry) :=
  match qs with
  | [] => [(k, [e])]
  | kv :: rest =>
    if kv.1 == k then (kv.1, kv.2 ++ [e]) :: rest
    else kv :: pushQueue rest k e

/-- `DEL key`: remove the list at `k` entirely. -/
def deleteQueue (qs : List (String × List QueueEntry)) (k : String) :
    List (String × List QueueEntry) :=
  qs.filter fun kv => kv.1 != k

/-- The response model of `POST /process_queue`. -/
structure ProcessQueueResponse where
  user_id : String
  streamer_id : String
  messages_processed : Nat
  intent : String
  cantidad : Int
  matched_product : Option MatchedProduct
  payment_ready : Bool
  response_text : String
deriving DecidableEq, Repr

/-- `process_user_queue` (app.py lines 430-621): drain the recipient's
queue, classify the combined text, correlate a frame on buying intent,
and delete the queue key; an empty or absent queue returns the empty
response and leaves the store untouched. Returns the response, the new
Redis state, and the trace of outbound calls. -/
def process_user_queue (env : PipelineEnv) (streamer_id user_id : String)
    (st : RedisState) : ProcessQueueResponse × RedisState × List ExtCall :=
  let key := queueKey streamer_id user_id
  let entries := getQueue st key
  if entries.isEmpty then
    (⟨user_id, streamer_id, 0, "no", 0, none, false, emptyQueueText⟩, st, [])
  else
    let messages := entries.map entryMessage
    let firstTs := (firstTimestamp entries).getD env.now
    let combined := String.intercalate " | " messages
    let ic := parseWebhook env.webhook
    let flow :=
      if ic.1 = "yes" then batchIntentFlow env streamer_id firstTs ic.2
      else (none, false, defaultReplyText, [])
    (⟨user_id, streamer_id, entries.length, ic.1, ic.2, flow.1, flow.2.1, flow.2.2.1⟩,
      { st with queues := deleteQueue st.queues key },
      ExtCall.classifier combined :: flow.2.2.2)

/-- Availability of the substrates seen by `_queue_comment_internal`:
whether `redis_client` is non-None, whether the Redis XADD/RPUSH/EXPIRE
block raises, whether Supabase was initialized, and whether the Supabase
insert raises. -/
structure Substrate where
  redisConnected : Bool
  redisOpsFail : Bool
  dbConnected : Bool
  supabaseFails : Bool
deriving DecidableEq, Repr

/-- Redis commands issued by `_queue_comment_internal`, in order. -/
inductive RedisOp where
  | xadd (stream : String) (c : Comment)
  | rpush (key : String) (entry : QueueEntry)
  | expire (key : String) (seconds : Nat)
deriving DecidableEq, Repr

/-- The HTTP errors `_queue_comment_internal` can raise: 503 when
`redis_client` is None, 500 when the Redis command block raises. -/
inductive SubmitError where
  | serviceUnavailable
  | queueingFailed
deriving DecidableEq, Repr

/-- The success dictionary returned by `_queue_comment_internal`. -/
structure SubmitOk where
  ok : Bool
  queued_to : String
  stream : String
  timestamp : Nat
deriving DecidableEq, Repr

/-- `json.dumps(comment)` as later read back by `json.loads` in
`process_user_queue`, which consumes only the `message` and `timestamp`
fields. -/
def commentEntry (c : Comment) : QueueEntry :=
  .parsed c.message (some c.timestamp)

/-- `_queue_comment_internal` (app.py lines 319-388): XADD to
`comments_stream`, RPUSH to the per-client list, EXPIRE the list to 7
days, then a best-effort Supabase insert whose failure is swallowed.
Returns the new Redis state, the new `chat_messages` table, the Redis
command trace, and the response dictionary — or the HTTP error raised. -/
def queueCommentInternal (sub : Substrate) (st : RedisState)
    (chatMessages : List Comment) (payload : Comment) :
    Except SubmitError (RedisState × List Comment × List RedisOp × SubmitOk) :=
  let key := queueKey payload.streamer payload.client
  if ¬ sub.redisConnected then .error .serviceUnavailable
  else if sub.redisOpsFail then .error .queueingFailed
  else
    let stored := if sub.dbConnected ∧ ¬ sub.supabaseFails
      then chatMessages ++ [payload] else chatMessages
    .ok ({ stream := st.stream ++ [payload],
           queues := pushQueue st.queues key (commentEntry payload) },
         stored,
         [.xadd "comments_stream" payload, .rpush key (commentEntry payload),
          .expire key (7 * 24 * 3600)],
         ⟨true, key, "comments_stream", payload.timestamp⟩)

def chatNoMatchText : String :=
  "No pude identificar el producto exacto. ¿Te gustaría ver más opciones?"

def chatErrorText : String :=
  "Hubo un problema al buscar el producto. Por favor intenta de nuevo."

/-- app.py line 270: the confirmation prompt of the chat path. -/
def confirmChatText (p : Product) (cantidad : Int) : String :=
  "¡Encontré el producto! " ++ p.name ++ " - $" ++ toString p.price ++
    ". ¿Deseas proceder con la compra de " ++ toString cantidad ++ " unidad(es)?"

/-- The hard-coded fallback recommendation of `process_chat`. -/
structure SampleProduct where
  id : String
  name : String
  price : ℚ
  url : String
deriving DecidableEq, Repr

def sampleRecommendations : List SampleProduct :=
  [⟨"prod_001", "Sample Product", 2999/100, "https://example.com/product/1"⟩]

/-- The request model of `POST /chat`. -/
structure ChatMessage where
  user_id : String
  streamer_id : String
  message : String
deriving DecidableEq, Repr

/-- The response model of `POST /chat`. -/
structure ChatResponse where
  user_id : String
  streamer_id : String
  message : String
  intent : String
  cantidad : Int
  timestamp : Nat
  matched_product : Option MatchedProduct
  recommended_products : List SampleProduct
  response_text : String
  payment_ready : Bool
deriving DecidableEq, Repr

/-- The frame query of `process_chat` (app.py lines 221-226): frames of
the streamer ordered by `frame_timestamp` descending, limit 1. -/
def latestFrame (frames : List FrameRecord) (s : String) : Option FrameRecord :=
  argmaxTs (frames.filter fun r => r.streamer == s)

/-- The buying-intent branch of `process_chat` (app.py lines 214-284):
latest frame, vision call, product fetch; a raised exception degrades to
an apology, a completed flow without a match falls back to the sample
recommendations. Returns (matched_product, payment_ready,
recommended_products, response_text). -/
def chatIntentFlow (env : PipelineEnv) (streamer : String) (cantidad : Int) :
    Option MatchedProduct × Bool × List SampleProduct × String :=
  match (if env.dbConnected then latestFrame env.frames streamer else none) with
  | none => (none, false, sampleRecommendations, chatNoMatchText)
  | some _fr =>
    match env.vision with
    | .failure => (none, false, [], chatErrorText)
    | .badStatus _ => (none, false, sampleRecommendations, chatNoMatchText)
    | .success pid? =>
      match pid? with
      | none => (none, false, sampleRecommendations, chatNoMatchText)
      | some pid =>
        if pid = "" then (none, false, sampleRecommendations, chatNoMatchText)
        else
          match findProduct env.products pid with
          | none => (none, false, sampleRecommendations, chatNoMatchText)
          | some p =>
            (some (buildMatchedProduct p cantidad), true, [],
              confirmChatText p cantidad)

/-- `process_chat` (app.py lines 156-313): classify one message, and on
buying intent run the chat correlation flow. -/
def process_chat (env : PipelineEnv) (payload : ChatMessage) : ChatResponse :=
  let ic := parseWebhook env.webhook
  let flow :=
    if ic.1 = "yes" then chatIntentFlow env payload.streamer_id ic.2
    else (none, false, [], defaultReplyText)
  { user_id := payload.user_id, streamer_id := payload.streamer_id,
    message := payload.message, intent := ic.1, cantidad := ic.2,
    timestamp := env.now, matched_product := flow.1,
    recommended_products := flow.2.2.1, response_text := flow.2.2.2,
    payment_ready := flow.2.1 }

/-- Body of an NLP `/predict_intent` response as consumed by the worker:
`intent` and `score` looked up with `.get`. -/
structure NlpBody where
  intent : Option String
  score : Option ℚ
deriving DecidableEq, Repr

/-- Outcome of the worker's NLP call: a response whose status is NOT
inspected by the code, or a raised exception (connection error, timeout,
or a body `.json()` cannot parse). -/
inductive NlpOutcome where
  | responded (status : Nat) (body : NlpBody)
  | failure
deriving DecidableEq, Repr

/-- worker.py line 72: the initial `nlp_result`. -/
def defaultNlpResult : NlpBody := ⟨some "none", some 0⟩

/-- The `nlp_result` in effect after step 1 of `process_comment`: the
response body whenever a response was parsed (its status is never
checked), the default on any exception. -/
def nlpResultOf : NlpOutcome → NlpBody
  | .responded _ body => body
  | .failure => defaultNlpResult

/-- Body of a vision `/match_product` response as consumed by the worker. -/
structure MatchBody where
  productId : Option String
  score : Option ℚ
deriving DecidableEq, Repr

/-- Outcome of the worker's vision call. -/
inductive MatchOutcome where
  | responded (status : Nat) (body : MatchBody)
  | failure
deriving DecidableEq, Repr

/-- worker.py line 90: the initial `match_result`. -/
def defaultMatchResult : MatchBody := ⟨none, some 0⟩

def matchResultOf : MatchOutcome → MatchBody
  | .responded _ body => body
  | .failure => defaultMatchResult

/-- Python truthiness of `match_result.get("productId")`: absent and the
empty string are falsy. -/
def pyTruthy : Option String → Bool
  | none => false
  | some s => s != ""

/-- Environment of one `process_comment` run: the outcomes of the NLP,
vision, and order-creation calls. -/
structure WorkerEnv where
  nlp : NlpOutcome
  visionMatch : MatchOutcome
  orderSucceeds : Bool
deriving DecidableEq, Repr

/-- A comment as the worker reads it from a queue: a JSON dictionary
whose fields are looked up with `.get`. -/
structure WorkerComment where
  streamer : Option String
  client : Option String
  message : Option String
deriving DecidableEq, Repr

/-- Outbound calls made by `process_comment`, recorded as a trace. -/
inductive WorkerAction where
  | callNlp (text : String)
  | callVision (frameUrls : List String)
  | createOrder (product_id : String) (buyer : Option String)
      (streamer : Option String) (source : String)
deriving DecidableEq, Repr

/-- `process_comment` (worker.py lines 67-126): NLP call (exceptions give
the default), the buy/0.5 threshold gate on the vision call, the
match/0.7 threshold gate on order creation; order failure is only
logged. Returns the trace of calls attempted. -/
def process_comment (env : WorkerEnv) (comment : WorkerComment) :
    List WorkerAction :=
  let nlp := nlpResultOf env.nlp
  let step1 := [WorkerAction.callNlp (comment.message.getD "")]
  if nlp.intent = some "buy" ∧ (1/2 : ℚ) < nlp.score.getD 0 then
    let m := matchResultOf env.visionMatch
    let step3 := step1 ++ [WorkerAction.callVision []]
    if pyTruthy m.productId ∧ (7/10 : ℚ) < m.score.getD 0 then
      step3 ++ [WorkerAction.createOrder (m.productId.getD "") comment.client
        comment.streamer "tiktok_live"]
    else step3
  else step1

/-- One `SCAN cursor MATCH chat:queue:* COUNT 100` reply, the backing
store modelled as the pages it serves for successive cursors: the reply
for cursor `i` is page `i` and the next cursor, `0` once the last page is
served. -/
def redisScanStep (pages : List (List String)) (cursor : Nat) :
    Nat × List String :=
  (if cursor + 1 < pages.length then cursor + 1 else 0, pages.getD cursor [])

/-- The `while True` SCAN loop of `get_active_queue_keys`: extend `keys`
with each batch, stop when the returned cursor is `0`. Fuel bounds the
iteration count; `pages.length + 1` suffices for a store serving
`pages`. -/
def scanLoop (pages : List (List String)) : Nat → Nat → List String
  | _, 0 => []
  | cursor, fuel + 1 =>
    let step := redisScanStep pages cursor
    if step.1 = 0 then step.2 else step.2 ++ scanLoop pages step.1 fuel

/-- `get_active_queue_keys` (worker.py lines 128-143): the cursor loop
over the store (`none` models an unreachable store, where the `except`
branch returns `[]`). -/
def get_active_queue_keys (store : Option (List (List String))) :
    List String :=
  match store with
  | none => []
  | some pages => scanLoop pages 0 (pages.length + 1)

theorem argmaxTs_eq_none {l : List FrameRecord} (h : argmaxTs l = none) :
    l = [] := by
  cases l with
  | nil => rfl
  | cons a as =>
    simp only [argmaxTs] at h
    cases hm : argmaxTs as with
    | none => rw [hm] at h; simp at h
    | some m => rw [hm] at h; dsimp only at h; split_ifs at h

theorem argmaxTs_mem : ∀ {l : List FrameRecord} {r : FrameRecord},
    argmaxTs l = some r → r ∈ l := by
  intro l
  induction l with
  | nil => intro r h; simp [argmaxTs] at h
  | cons a as ih =>
    intro r h
    simp only [argmaxTs] at h
    cases hm : argmaxTs as with
    | none =>
      rw [hm] at h
      dsimp only at h
      injection h with h
      subst h
      exact List.mem_cons_self _ _
    | some m =>
      rw [hm] at h
      dsimp only at h
      split_ifs at h with hc
      · injection h with h
        subst h
        exact List.mem_cons_of_mem _ (ih hm)
      · injection h with h
        subst h
        exact List.mem_cons_self _ _

theorem argmaxTs_ge : ∀ {l : List FrameRecord} {r : FrameRecord},
    argmaxTs l = some r →
    ∀ p ∈ l, p.frame_timestamp ≤ r.frame_timestamp := by
  intro l
  induction l with
  | nil => intro r h; simp [argmaxTs] at h
  | cons a as ih =>
    intro r h p hp
    simp only [argmaxTs] at h
    cases hm : argmaxTs as with
    | none =>
      rw [hm] at h
      dsimp only at h
      injection h with h
      subst h
      rcases List.mem_cons.mp hp with hpa | hpas
      · subst hpa; exact le_refl _
      · rw [argmaxTs_eq_none hm] at hpas; simp at hpas
    | some m =>
      rw [hm] at h
      dsimp only at h
      split_ifs at h with hc
      · injection h with h
        subst h
        rcases List.mem_cons.mp hp with hpa | hpas
        · subst hpa; exact le_of_lt hc
        · exact ih hm p hpas
      · injection h with h
        subst h
        rcases List.mem_cons.mp hp with hpa | hpas
        · subst hpa; exact le_refl _
        · exact le_trans (ih hm p hpas) (not_lt.mp hc)

theorem argminTs_eq_none {l : List FrameRecord} (h : argminTs l = none) :
    l = [] := by
  cases l with
  | nil => rfl
  | cons a as =>
    simp only [argminTs] at h
    cases hm : argminTs as with
    | none => rw [hm] at h; simp at h
    | some m => rw [hm] at h; dsimp only at h; split_ifs at h

theorem argminTs_mem : ∀ {l : List FrameRecord} {r : FrameRecord},
    argminTs l = some r → r ∈ l := by
  intro l
  induction l with
  | nil => intro r h; simp [argminTs] at h
  | cons a as ih =>
    intro r h
    simp only [argminTs] at h
    cases hm : argminTs as with
    | none =>
      rw [hm] at h
      dsimp only at h
      injection h with h
      subst h
      exact List.mem_cons_self _ _
    | some m =>
      rw [hm] at h
      dsimp only at h
      split_ifs at h with hc
      · injection h with h
        subst h
        exact List.mem_cons_of_mem _ (ih hm)
      · injection h with h
        subst h
        exact List.mem_cons_self _ _

theorem argminTs_le : ∀ {l : List FrameRecord} {r : FrameRecord},
    argminTs l = some r →
    ∀ p ∈ l, r.frame_timestamp ≤ p.frame_timestamp := by
  intro l
  induction l with
  | nil => intro r h; simp [argminTs] at h
  | cons a as ih =>
    intro r h p hp
    simp only [argminTs] at h
    cases hm : argminTs as with
    | none =>
      rw [hm] at h
      dsimp only at h
      injection h with h
      subst h
      rcases List.mem_cons.mp hp with hpa | hpas
      · subst hpa; exact le_refl _
      · rw [argminTs_eq_none hm] at hpas; simp at hpas
    | some m =>
      rw [hm] at h
      dsimp only at h
      split_ifs at h with hc
      · injection h with h
        subst h
        rcases List.mem_cons.mp hp with hpa | hpas
        · subst hpa; exact le_of_lt hc
        · exact ih hm p hpas
      · injection h with h
        subst h
        rcases List.mem_cons.mp hp with hpa | hpas
        · subst hpa; exact le_refl _
        · exact le_trans (not_lt.mp hc) (ih hm p hpas)

theorem mem_framesAtOrBefore {frames : List FrameRecord} {s : String}
    {ts : Nat} {r : FrameRecord} :
    r ∈ framesAtOrBefore frames s ts ↔
      r ∈ frames ∧ r.streamer = s ∧ r.frame_timestamp ≤ ts := by
  simp [framesAtOrBefore, List.mem_filter]

theorem mem_framesAtOrAfter {frames : List FrameRecord} {s : String}
    {ts : Nat} {r : FrameRecord} :
    r ∈ framesAtOrAfter frames s ts ↔
      r ∈ frames ∧ r.streamer = s ∧ ts ≤ r.frame_timestamp := by
  simp [framesAtOrAfter, List.mem_filter]

/-- C1: for every set of captured frame records and every intent anchor,
the correlator selects the record with the greatest `capture_timestamp`
among those of the source at or before the anchor; when none exists, it
selects the record with the least `capture_timestamp` among those at or
after the anchor. In particular, with frames at t=10 and t=20 and anchor
15 it selects the t=10 frame, and with only a frame at t=20 and anchor 15
it selects the t=20 frame. -/
theorem selectFrame_nearest_with_fallback
    (frames : List FrameRecord) (s : String) (ts : Nat) :
    ((∃ r ∈ frames, r.streamer = s ∧ r.frame_timestamp ≤ ts) →
      ∃ q, selectFrame frames s ts = some q ∧ q ∈ frames ∧ q.streamer = s ∧
        q.frame_timestamp ≤ ts ∧
        ∀ p ∈ frames, p.streamer = s → p.frame_timestamp ≤ ts →
          p.frame_timestamp ≤ q.frame_timestamp) ∧
    ((¬ ∃ r ∈ frames, r.streamer = s ∧ r.frame_timestamp ≤ ts) →
      (∃ r ∈ frames, r.streamer = s ∧ ts ≤ r.frame_timestamp) →
      ∃ q, selectFrame frames s ts = some q ∧ q ∈ frames ∧ q.streamer = s ∧
        ts ≤ q.frame_timestamp ∧
        ∀ p ∈ frames, p.streamer = s → ts ≤ p.frame_timestamp →
          q.frame_timestamp ≤ p.frame_timestamp) ∧
    selectFrame [⟨"s1", 10, "u10"⟩, ⟨"s1", 20, "u20"⟩] "s1" 15 =
      some ⟨"s1", 10, "u10"⟩ ∧
    selectFrame [⟨"s1", 20, "u20"⟩] "s1" 15 = some ⟨"s1", 20, "u20"⟩ := by
  refine ⟨?_, ?_, by decide, by decide⟩
  · rintro ⟨r, hr, hrs, hrt⟩
    have hrf : r ∈ framesAtOrBefore frames s ts :=
      mem_framesAtOrBefore.mpr ⟨hr, hrs, hrt⟩
    cases hq : argmaxTs (framesAtOrBefore frames s ts) with
    | none =>
      rw [argmaxTs_eq_none hq] at hrf
      simp at hrf
    | some q =>
      have hqm := mem_framesAtOrBefore.mp (argmaxTs_mem hq)
      refine ⟨q, ?_, hqm.1, hqm.2.1, hqm.2.2, ?_⟩
      · simp only [selectFrame, hq]
      · intro p hp hps hpt
        exact argmaxTs_ge hq p (mem_framesAtOrBefore.mpr ⟨hp, hps, hpt⟩)
  · intro hnone
    rintro ⟨r, hr, hrs, hrt⟩
    have hempty : framesAtOrBefore frames s ts = [] := by
      cases he : framesAtOrBefore frames s ts with
      | nil => rfl
      | cons a as =>
        exfalso
        apply hnone
        have ha : a ∈ framesAtOrBefore frames s ts := by
          rw [he]; exact List.mem_cons_self _ _
        obtain ⟨h1, h2, h3⟩ := mem_framesAtOrBefore.mp ha
        exact ⟨a, h1, h2, h3⟩
    have hrf : r ∈ framesAtOrAfter frames s ts :=
      mem_framesAtOrAfter.mpr ⟨hr, hrs, hrt⟩
    cases hq : argminTs (framesAtOrAfter frames s ts) with
    | none =>
      rw [argminTs_eq_none hq] at hrf
      simp at hrf
    | some q =>
      have hqm := mem_framesAtOrAfter.mp (argminTs_mem hq)
      refine ⟨q, ?_, hqm.1, hqm.2.1, hqm.2.2, ?_⟩
      · simp only [selectFrame, hempty, argmaxTs, hq]
      · intro p hp hps hpt
        exact argminTs_le hq p (mem_framesAtOrAfter.mpr ⟨hp, hps, hpt⟩)

/-- Witness for C1 at a concrete frame table: both the before-or-at case
and the fallback-after case are exercised. -/
theorem selectFrame_nearest_with_fallback_witness :
    (∃ q, selectFrame [⟨"s1", 10, "u10"⟩, ⟨"s1", 20, "u20"⟩] "s1" 15 =
        some q ∧ q ∈ [⟨"s1", 10, "u10"⟩, ⟨"s1", 20, "u20"⟩] ∧
        q.streamer = "s1" ∧ q.frame_timestamp ≤ 15 ∧
        ∀ p ∈ ([⟨"s1", 10, "u10"⟩, ⟨"s1", 20, "u20"⟩] : List FrameRecord),
          p.streamer = "s1" → p.frame_timestamp ≤ 15 →
          p.frame_timestamp ≤ q.frame_timestamp) ∧
    (∃ q, selectFrame [⟨"s1", 20, "u20"⟩] "s1" 15 = some q ∧
        q ∈ [⟨"s1", 20, "u20"⟩] ∧ q.streamer = "s1" ∧ 15 ≤ q.frame_timestamp ∧
        ∀ p ∈ ([⟨"s1", 20, "u20"⟩] : List FrameRecord),
          p.streamer = "s1" → 15 ≤ p.frame_timestamp →
          q.frame_timestamp ≤ p.frame_timestamp) :=
  ⟨(selectFrame_nearest_with_fallback
      [⟨"s1", 10, "u10"⟩, ⟨"s1", 20, "u20"⟩] "s1" 15).1 (by decide),
   (selectFrame_nearest_with_fallback [⟨"s1", 20, "u20"⟩] "s1" 15).2.1
      (by decide) (by decide)⟩

/-- C2 counterexample: the `first_timestamp` the code anchors frame
selection on is the timestamp of the first message in queue order, not
the minimum timestamp of the batch. With a batch whose first queued
message carries t=20 and whose second carries t=10, the code anchors at
20 while the earliest carried timestamp is 10 — and the two anchors
select different frames from the same frame table. -/
theorem firstTimestamp_not_earliest_cex :
    firstTimestamp [QueueEntry.parsed "quiero" (some 20),
        QueueEntry.parsed "comprar" (some 10)] = some 20 ∧
    specEarliestTimestamp [QueueEntry.parsed "quiero" (some 20),
        QueueEntry.parsed "comprar" (some 10)] = some 10 ∧
    selectFrame [⟨"s1", 12, "u12"⟩, ⟨"s1", 8, "u8"⟩] "s1" 20 =
      some ⟨"s1", 12, "u12"⟩ ∧
    selectFrame [⟨"s1", 12, "u12"⟩, ⟨"s1", 8, "u8"⟩] "s1" 10 =
      some ⟨"s1", 8, "u8"⟩ ∧
    (some 20 : Option Nat) ≠ some 10 := by decide

/-- C2 (amended): for every non-empty drained batch, the intent anchor
`first_timestamp` equals the timestamp of the first message, in queue
(drain) order, that carries a timestamp — messages earlier in the queue
carrying no timestamp are skipped. (It equals the minimum timestamp only
when the queue happens to be timestamp-ordered.) -/
theorem firstTimestamp_first_in_queue_order (pre : List QueueEntry)
    (e : QueueEntry) (post : List QueueEntry) (t : Nat)
    (he : entryTimestamp e = some t)
    (hpre : ∀ p ∈ pre, entryTimestamp p = none) :
    firstTimestamp (pre ++ e :: post) = some t := by
  induction pre with
  | nil => simp [firstTimestamp, he]
  | cons a as ih =>
    have ha : entryTimestamp a = none := hpre a (List.mem_cons_self _ _)
    rw [List.cons_append]
    simp only [firstTimestamp, ha]
    exact ih fun p hp => hpre p (List.mem_cons_of_mem _ hp)

/-- Witness for the amended C2: a batch with a timestamp-less first
entry. -/
theorem firstTimestamp_first_in_queue_order_witness :
    firstTimestamp [QueueEntry.malformed "???",
      QueueEntry.parsed "quiero" (some 42),
      QueueEntry.parsed "comprar" (some 7)] = some 42 :=
  firstTimestamp_first_in_queue_order [QueueEntry.malformed "???"]
    (QueueEntry.parsed "quiero" (some 42))
    [QueueEntry.parsed "comprar" (some 7)] 42 (by decide) (by decide)

theorem scanLoop_join (pages : List (List String)) :
    ∀ fuel cursor, cursor < pages.length → pages.length ≤ cursor + fuel →
      scanLoop pages cursor fuel = (pages.drop cursor).flatten := by
  intro fuel
  induction fuel with
  | zero => intro cursor h1 h2; omega
  | succ n ih =>
    intro cursor h1 h2
    simp only [scanLoop, redisScanStep]
    by_cases hc : cursor + 1 < pages.length
    · rw [if_pos hc, if_neg (by omega : ¬ (cursor + 1 = 0)),
        ih (cursor + 1) hc (by omega),
        List.getD_eq_getElem pages [] h1,
        List.drop_eq_getElem_cons h1, List.flatten_cons]
    · rw [if_neg hc, if_pos rfl, List.getD_eq_getElem pages [] h1,
        List.drop_eq_getElem_cons h1,
        List.drop_eq_nil_of_le (by omega : pages.length ≤ cursor + 1),
        List.flatten_cons, List.flatten_nil, List.append_nil]

/-- C8: queue discovery collects every key served by the paginated
cursor-driven prefix scan — the result is the concatenation of all pages
the store serves before the cursor signals completion — and an
unreachable store yields the empty list instead of an error. -/
theorem scan_collects_all_pages (pages : List (List String)) :
    get_active_queue_keys (some pages) = pages.flatten ∧
    get_active_queue_keys none = [] := by
  refine ⟨?_, rfl⟩
  cases pages with
  | nil => rfl
  | cons p ps =>
    show scanLoop (p :: ps) 0 ((p :: ps).length + 1) = (p :: ps).flatten
    rw [scanLoop_join (p :: ps) ((p :: ps).length + 1) 0 (by simp) (by omega)]
    rw [List.drop_zero]

theorem lookupQueue_deleteQueue (qs : List (String × List QueueEntry))
    (k : String) : lookupQueue (deleteQueue qs k) k = [] := by
  have h : (deleteQueue qs k).find? (fun kv => kv.1 == k) = none := by
    rw [List.find?_eq_none]
    intro kv hkv
    have h2 := (List.mem_filter.mp hkv).2
    simpa using h2
  simp [lookupQueue, h]

theorem lookupQueue_cons (kv : String × List QueueEntry)
    (rest : List (String × List QueueEntry)) (k : String) :
    lookupQueue (kv :: rest) k =
      if kv.1 == k then kv.2 else lookupQueue rest k := by
  by_cases h : kv.1 == k
  · simp [lookupQueue, List.find?_cons, h]
  · simp [lookupQueue, List.find?_cons, h]

theorem lookupQueue_pushQueue_self (qs : List (String × List QueueEntry))
    (k : String) (e : QueueEntry) :
    lookupQueue (pushQueue qs k e) k = lookupQueue qs k ++ [e] := by
  induction qs with
  | nil => simp [pushQueue, lookupQueue]
  | cons kv rest ih =>
    simp only [pushQueue]
    by_cases h : kv.1 == k
    · rw [if_pos h, lookupQueue_cons, lookupQueue_cons]
      simp [h]
    · rw [if_neg h, lookupQueue_cons, lookupQueue_cons, if_neg h, if_neg h]
      exact ih

theorem lookupQueue_pushQueue_ne (qs : List (String × List QueueEntry))
    (k k2 : String) (e : QueueEntry) (hne : k2 ≠ k) :
    lookupQueue (pushQueue qs k e) k2 = lookupQueue qs k2 := by
  induction qs with
  | nil =>
    simp only [pushQueue, lookupQueue_cons]
    rw [if_neg (by simpa using Ne.symm hne)]
  | cons kv rest ih =>
    simp only [pushQueue]
    by_cases h : kv.1 == k
    · rw [if_pos h, lookupQueue_cons, lookupQueue_cons]
      by_cases h2 : kv.1 == k2
      · exact absurd (by
          have e1 : kv.1 = k := by simpa using h
          have e2 : kv.1 = k2 := by simpa using h2
          rw [← e1, e2]) hne.symm
      · simp [h2]
    · rw [if_neg h, lookupQueue_cons, lookupQueue_cons]
      by_cases h2 : kv.1 == k2
      · simp [h2]
      · simp only [h2, if_false]
        exact ih

/-- C9: a batched-processing request whose queue is empty or absent
returns the well-formed empty response (0 messages, intent `no`,
cantidad 0, no matched product, `payment_ready = false`), makes no
classifier or vision call, and leaves the store untouched. -/
theorem process_queue_empty_noop (env : PipelineEnv) (streamer user : String)
    (st : RedisState)
    (h : getQueue st (queueKey streamer user) = []) :
    process_user_queue env streamer user st =
      (⟨user, streamer, 0, "no", 0, none, false, emptyQueueText⟩, st, []) := by
  simp [process_user_queue, h]

/-- Witness for C9 at a concrete store with no queue for the client. -/
theorem process_queue_empty_noop_witness :
    process_user_queue ⟨.failure, .failure, [], [], false, 0⟩ "s1" "c1"
        ⟨[], []⟩ =
      (⟨"c1", "s1", 0, "no", 0, none, false, emptyQueueText⟩, ⟨[], []⟩, []) :=
  process_queue_empty_noop ⟨.failure, .failure, [], [], false, 0⟩ "s1" "c1"
    ⟨[], []⟩ (by decide)

/-- C6: whenever batched queue processing finds at least one message, the
recipient queue key is deleted in full afterwards — the queue reads back
empty from the resulting store state. -/
theorem process_queue_drains_fully (env : PipelineEnv)
    (streamer user : String) (st : RedisState)
    (h : getQueue st (queueKey streamer user) ≠ []) :
    getQueue (process_user_queue env streamer user st).2.1
      (queueKey streamer user) = [] := by
  cases hq : getQueue st (queueKey streamer user) with
  | nil => exact absurd hq h
  | cons a as =>
    simp only [process_user_queue, hq, List.isEmpty_cons, Bool.false_eq_true,
      if_false]
    exact lookupQueue_deleteQueue st.queues (queueKey streamer user)

/-- Witness for C6: a store holding one queued message for the client. -/
theorem process_queue_drains_fully_witness :
    getQueue (process_user_queue ⟨.failure, .failure, [], [], false, 0⟩
        "s1" "c1"
        ⟨[], [(queueKey "s1" "c1", [QueueEntry.parsed "hola" (some 3)])]⟩).2.1
      (queueKey "s1" "c1") = [] :=
  process_queue_drains_fully ⟨.failure, .failure, [], [], false, 0⟩ "s1" "c1"
    ⟨[], [(queueKey "s1" "c1", [QueueEntry.parsed "hola" (some 3)])]⟩
    (by decide)

/-- C5: for every valid comment, a successful submit appends exactly one
entry to the global `comments_stream` log and exactly one entry to the
per-(source,recipient) queue (all other queues untouched), with the log
XADD issued before the queue RPUSH in the command trace; when the
queue/log substrate is down or its commands fail, the request is rejected
with an explicit error; the best-effort Supabase write never changes what
the caller sees. -/
theorem submit_appends_log_then_queue (sub : Substrate) (st : RedisState)
    (cm : List Comment) (payload : Comment) :
    (sub.redisConnected = true → sub.redisOpsFail = false →
      ∃ st2 cm2,
        queueCommentInternal sub st cm payload =
          .ok (st2, cm2,
            [RedisOp.xadd "comments_stream" payload,
             RedisOp.rpush (queueKey payload.streamer payload.client)
               (commentEntry payload),
             RedisOp.expire (queueKey payload.streamer payload.client)
               (7 * 24 * 3600)],
            ⟨true, queueKey payload.streamer payload.client,
              "comments_stream", payload.timestamp⟩) ∧
        st2.stream = st.stream ++ [payload] ∧
        getQueue st2 (queueKey payload.streamer payload.client) =
          getQueue st (queueKey payload.streamer payload.client) ++
            [commentEntry payload] ∧
        (∀ k, k ≠ queueKey payload.streamer payload.client →
          getQueue st2 k = getQueue st k)) ∧
    ((sub.redisConnected = false ∨ sub.redisOpsFail = true) →
      ∃ err, queueCommentInternal sub st cm payload = .error err) ∧
    Except.map (fun x => (x.1, x.2.2))
        (queueCommentInternal { sub with supabaseFails := true } st cm
          payload) =
      Except.map (fun x => (x.1, x.2.2))
        (queueCommentInternal { sub with supabaseFails := false } st cm
          payload) := by
  refine ⟨?_, ?_, ?_⟩
  · intro h1 h2
    refine ⟨{ stream := st.stream ++ [payload],
              queues := pushQueue st.queues
                (queueKey payload.streamer payload.client)
                (commentEntry payload) },
            if sub.dbConnected ∧ ¬ sub.supabaseFails
              then cm ++ [payload] else cm, ?_, rfl, ?_, ?_⟩
    · simp [queueCommentInternal, h1, h2]
    · exact lookupQueue_pushQueue_self st.queues _ _
    · intro k hk
      exact lookupQueue_pushQueue_ne st.queues _ k _ hk
  · rintro (h | h)
    · exact ⟨.serviceUnavailable, by simp [queueCommentInternal, h]⟩
    · cases hc : sub.redisConnected with
      | false =>
        exact ⟨.serviceUnavailable, by simp [queueCommentInternal, hc]⟩
      | true =>
        exact ⟨.queueingFailed, by simp [queueCommentInternal, hc, h]⟩
  · cases hc : sub.redisConnected with
    | false => simp [queueCommentInternal, hc]
    | true =>
      cases ho : sub.redisOpsFail with
      | true => simp [queueCommentInternal, hc, ho]
      | false => simp [queueCommentInternal, hc, ho, Except.map]

/-- Witness for C5 at a concrete comment and substrate (Redis healthy,
Supabase failing): success with the XADD-RPUSH-EXPIRE trace. -/
theorem submit_appends_log_then_queue_witness :
    ∃ st2 cm2,
      queueCommentInternal ⟨true, false, true, true⟩ ⟨[], []⟩ []
          ⟨"s1", "c1", 5, "hola"⟩ =
        .ok (st2, cm2,
          [RedisOp.xadd "comments_stream" ⟨"s1", "c1", 5, "hola"⟩,
           RedisOp.rpush (queueKey "s1" "c1")
             (commentEntry ⟨"s1", "c1", 5, "hola"⟩),
           RedisOp.expire (queueKey "s1" "c1") (7 * 24 * 3600)],
          ⟨true, queueKey "s1" "c1", "comments_stream", 5⟩) ∧
      st2.stream = RedisState.stream ⟨[], []⟩ ++ [⟨"s1", "c1", 5, "hola"⟩] ∧
      getQueue st2 (queueKey "s1" "c1") =
        getQueue ⟨[], []⟩ (queueKey "s1" "c1") ++
          [commentEntry ⟨"s1", "c1", 5, "hola"⟩] ∧
      (∀ k, k ≠ queueKey "s1" "c1" → getQueue st2 k = getQueue ⟨[], []⟩ k) :=
  (submit_appends_log_then_queue ⟨true, false, true, true⟩ ⟨[], []⟩ []
    ⟨"s1", "c1", 5, "hola"⟩).1 rfl rfl

theorem batchIntentFlow_match (env : PipelineEnv) (streamer : String)
    (firstTs : Nat) (cantidad : Int) (fr : FrameRecord) (pid : String)
    (p : Product)
    (hdb : env.dbConnected = true)
    (hframe : selectFrame env.frames streamer firstTs = some fr)
    (hv : env.vision = .success (some pid))
    (hpid : pid ≠ "")
    (hp : findProduct env.products pid = some p) :
    batchIntentFlow env streamer firstTs cantidad =
      (some (buildMatchedProduct p cantidad), true,
        confirmBatchText p cantidad, [.vision fr.minio_url]) := by
  simp [batchIntentFlow, hdb, hframe, hv, hpid, hp]

/-- C3 counterexample: when the classifier supplies no quantity, the code
parses `cantidad` with default 0 — not 1. With unit price 50 and no
quantity in the classifier output, the fully resolved outcome carries
cantidad 0 and total 0, whereas a default of 1 would give total 50. -/
theorem quantity_default_cex :
    (process_user_queue
        ⟨.success (some "yes") none, .success (some "p1"),
          [⟨"s1", 4, "u4"⟩], [⟨"p1", "Gorra", 50, "d", "i"⟩], true, 9⟩
        "s1" "c1"
        ⟨[], [(queueKey "s1" "c1",
          [QueueEntry.parsed "quiero" (some 6)])]⟩).1.matched_product =
      some (buildMatchedProduct ⟨"p1", "Gorra", 50, "d", "i"⟩ 0) ∧
    (process_user_queue
        ⟨.success (some "yes") none, .success (some "p1"),
          [⟨"s1", 4, "u4"⟩], [⟨"p1", "Gorra", 50, "d", "i"⟩], true, 9⟩
        "s1" "c1"
        ⟨[], [(queueKey "s1" "c1",
          [QueueEntry.parsed "quiero" (some 6)])]⟩).1.cantidad = 0 ∧
    (buildMatchedProduct ⟨"p1", "Gorra", 50, "d", "i"⟩ 0).total = 0 ∧
    (buildMatchedProduct ⟨"p1", "Gorra", 50, "d", "i"⟩ 1).total = 50 ∧
    (50 : ℚ) ≠ 0 := by
  refine ⟨rfl, rfl, ?_, ?_, by norm_num⟩
  · simp [buildMatchedProduct]
  · norm_num [buildMatchedProduct]

/-- C3 (amended): for every batched correlation in which a frame is
selected, the visual matcher resolves a catalog item, and the catalog
record is fetched, the outcome carries the matched product with
`total = unit_price * cantidad`, where `cantidad` is the quantity parsed
from the classifier output, defaulting to 0 (not 1) when the classifier
did not supply one; `payment_ready` is set and the confirmation text
names the item, its price, and the quantity. -/
theorem batch_match_payment_summary (env : PipelineEnv)
    (streamer user : String) (st : RedisState) (intent? : Option String)
    (cant? : Option Int) (fr : FrameRecord) (pid : String) (p : Product)
    (hq : getQueue st (queueKey streamer user) ≠ [])
    (hw : env.webhook = .success intent? cant?)
    (hyes : pyLower (intent?.getD "no") = "yes")
    (hdb : env.dbConnected = true)
    (hframe : selectFrame env.frames streamer
      ((firstTimestamp (getQueue st (queueKey streamer user))).getD env.now) =
      some fr)
    (hv : env.vision = .success (some pid))
    (hpid : pid ≠ "")
    (hp : findProduct env.products pid = some p) :
    (process_user_queue env streamer user st).1.matched_product =
      some (buildMatchedProduct p (cant?.getD 0)) ∧
    (process_user_queue env streamer user st).1.payment_ready = true ∧
    (process_user_queue env streamer user st).1.cantidad = cant?.getD 0 ∧
    (buildMatchedProduct p (cant?.getD 0)).total =
      p.price * ((cant?.getD 0 : Int) : ℚ) ∧
    (process_user_queue env streamer user st).1.response_text =
      "¡Encontré el producto! " ++ p.name ++ " - $" ++ toString p.price ++
        ". ¿Deseas comprar " ++ toString (cant?.getD 0) ++
        " unidad(es)?" := by
  have hflow := batchIntentFlow_match env streamer
    ((firstTimestamp (getQueue st (queueKey streamer user))).getD env.now)
    (cant?.getD 0) fr pid p hdb hframe hv hpid hp
  cases hqe : getQueue st (queueKey streamer user) with
  | nil => exact absurd hqe hq
  | cons a as =>
    rw [hqe] at hflow
    simp [process_user_queue, hqe, parseWebhook, hw, hyes, hflow,
      buildMatchedProduct, confirmBatchText]

/-- Witness for C3 at a concrete environment: classifier says yes with
quantity 2, frame at t=4 matches product p1 at unit price 50. -/
theorem batch_match_payment_summary_witness :
    (process_user_queue
        ⟨.success (some "yes") (some 2), .success (some "p1"),
          [⟨"s1", 4, "u4"⟩], [⟨"p1", "Gorra", 50, "d", "i"⟩], true, 9⟩
        "s1" "c1"
        ⟨[], [(queueKey "s1" "c1",
          [QueueEntry.parsed "quiero" (some 6)])]⟩).1.matched_product =
      some (buildMatchedProduct ⟨"p1", "Gorra", 50, "d", "i"⟩
        ((some 2 : Option Int).getD 0)) ∧
    (process_user_queue
        ⟨.success (some "yes") (some 2), .success (some "p1"),
          [⟨"s1", 4, "u4"⟩], [⟨"p1", "Gorra", 50, "d", "i"⟩], true, 9⟩
        "s1" "c1"
        ⟨[], [(queueKey "s1" "c1",
          [QueueEntry.parsed "quiero" (some 6)])]⟩).1.payment_ready = true ∧
    (process_user_queue
        ⟨.success (some "yes") (some 2), .success (some "p1"),
          [⟨"s1", 4, "u4"⟩], [⟨"p1", "Gorra", 50, "d", "i"⟩], true, 9⟩
        "s1" "c1"
        ⟨[], [(queueKey "s1" "c1",
          [QueueEntry.parsed "quiero" (some 6)])]⟩).1.cantidad =
      (some 2 : Option Int).getD 0 ∧
    (buildMatchedProduct ⟨"p1", "Gorra", 50, "d", "i"⟩
        ((some 2 : Option Int).getD 0)).total =
      (⟨"p1", "Gorra", 50, "d", "i"⟩ : Product).price *
        (((some 2 : Option Int).getD 0 : Int) : ℚ) ∧
    (process_user_queue
        ⟨.success (some "yes") (some 2), .success (some "p1"),
          [⟨"s1", 4, "u4"⟩], [⟨"p1", "Gorra", 50, "d", "i"⟩], true, 9⟩
        "s1" "c1"
        ⟨[], [(queueKey "s1" "c1",
          [QueueEntry.parsed "quiero" (some 6)])]⟩).1.response_text =
      "¡Encontré el producto! " ++ (⟨"p1", "Gorra", 50, "d", "i"⟩ : Product).name ++
        " - $" ++ toString (⟨"p1", "Gorra", 50, "d", "i"⟩ : Product).price ++
        ". ¿Deseas comprar " ++ toString ((some 2 : Option Int).getD 0) ++
        " unidad(es)?" :=
  batch_match_payment_summary
    ⟨.success (some "yes") (some 2), .success (some "p1"),
      [⟨"s1", 4, "u4"⟩], [⟨"p1", "Gorra", 50, "d", "i"⟩], true, 9⟩
    "s1" "c1"
    ⟨[], [(queueKey "s1" "c1", [QueueEntry.parsed "quiero" (some 6)])]⟩
    (some "yes") (some 2) ⟨"s1", 4, "u4"⟩ "p1" ⟨"p1", "Gorra", 50, "d", "i"⟩
    (by decide) rfl rfl rfl (by decide) rfl (by decide) (by decide)

/-- Does an action call the vision matcher? (Used to state when the
worker invokes it.) -/
def isVisionCall : WorkerAction → Bool
  | .callVision _ => true
  | _ => false

/-- Does an action create an order? -/
def isOrderAction : WorkerAction → Bool
  | .createOrder _ _ _ _ => true
  | _ => false

/-- C4 counterexample: the worker never inspects the classifier's HTTP
status. A 500 response whose JSON body claims intent buy with score 0.9
is used as-is instead of the default `intent none, score 0`, and the
pipeline proceeds to the vision call. -/
theorem classifier_status_not_checked_cex :
    nlpResultOf (.responded 500 ⟨some "buy", some (9/10)⟩) ≠
      defaultNlpResult ∧
    process_comment
        ⟨.responded 500 ⟨some "buy", some (9/10)⟩, .failure, true⟩
        ⟨some "s1", some "c1", some "quiero"⟩ =
      [.callNlp "quiero", .callVision []] := by
  constructor
  · intro h
    have := congrArg NlpBody.intent h
    simp [defaultNlpResult, nlpResultOf] at this
  · rw [process_comment]
    rw [if_pos ⟨rfl, by norm_num [nlpResultOf]⟩]
    rw [if_neg ?_]
    · rfl
    · rintro ⟨h1, -⟩
      simp [matchResultOf, defaultMatchResult, pyTruthy] at h1

/-- C4 (amended): a classifier exception, timeout, or unparseable body
yields the default result `intent none, score 0` in the worker — whose
pipeline then stops after the classifier call — while a non-success HTTP
status with a parseable body is NOT defaulted there (the status is never
inspected; see the counterexample); in the batched chat-product path any
exception, timeout, or non-success status yields intent `no` and
cantidad 0, and the outcome has `payment_ready = false`; in both paths
the pipeline continues and no exception reaches the caller. -/
theorem classifier_failure_defaults (wenv : WorkerEnv) (c : WorkerComment)
    (env : PipelineEnv) (streamer user : String) (st : RedisState)
    (hw : wenv.nlp = .failure)
    (hb : (∃ n, env.webhook = .badStatus n) ∨ env.webhook = .failure) :
    nlpResultOf wenv.nlp = ⟨some "none", some 0⟩ ∧
    process_comment wenv c = [.callNlp (c.message.getD "")] ∧
    (process_user_queue env streamer user st).1.intent = "no" ∧
    (process_user_queue env streamer user st).1.cantidad = 0 ∧
    (process_user_queue env streamer user st).1.payment_ready = false := by
  have hparse : parseWebhook env.webhook = ("no", 0) := by
    rcases hb with ⟨n, hbn⟩ | hbf
    · rw [hbn]; rfl
    · rw [hbf]; rfl
  refine ⟨by rw [hw]; rfl, ?_, ?_⟩
  · rw [process_comment, hw]
    rw [if_neg ?_]
    · rintro ⟨h1, -⟩
      simp [nlpResultOf, defaultNlpResult] at h1
  · cases hqe : getQueue st (queueKey streamer user) with
    | nil => simp [process_user_queue, hqe]
    | cons a as =>
      simp [process_user_queue, hqe, hparse]

/-- Witness for the amended C4: classifier connection failure in the
worker and a 503 webhook status in the batched path. -/
theorem classifier_failure_defaults_witness :
    nlpResultOf (WorkerEnv.nlp ⟨.failure, .failure, true⟩) =
      ⟨some "none", some 0⟩ ∧
    process_comment ⟨.failure, .failure, true⟩
        ⟨some "s1", some "c1", some "hola"⟩ =
      [.callNlp ((some "hola" : Option String).getD "")] ∧
    (process_user_queue ⟨.badStatus 503, .failure, [], [], true, 0⟩
        "s1" "c1"
        ⟨[], [(queueKey "s1" "c1",
          [QueueEntry.parsed "hola" (some 1)])]⟩).1.intent = "no" ∧
    (process_user_queue ⟨.badStatus 503, .failure, [], [], true, 0⟩
        "s1" "c1"
        ⟨[], [(queueKey "s1" "c1",
          [QueueEntry.parsed "hola" (some 1)])]⟩).1.cantidad = 0 ∧
    (process_user_queue ⟨.badStatus 503, .failure, [], [], true, 0⟩
        "s1" "c1"
        ⟨[], [(queueKey "s1" "c1",
          [QueueEntry.parsed "hola" (some 1)])]⟩).1.payment_ready = false :=
  classifier_failure_defaults ⟨.failure, .failure, true⟩
    ⟨some "s1", some "c1", some "hola"⟩
    ⟨.badStatus 503, .failure, [], [], true, 0⟩ "s1" "c1"
    ⟨[], [(queueKey "s1" "c1", [QueueEntry.parsed "hola" (some 1)])]⟩
    rfl (Or.inl ⟨503, rfl⟩)

/-- C7: in the per-message worker pipeline the visual matcher is invoked
exactly when the classifier label is `buy` with score strictly above 0.5,
and an order is created exactly when additionally the match result
carries a (truthy) product id with score strictly above 0.7; at or below
a threshold (equality included) nothing further happens. The trace of
`process_comment` contains only classifier/vision/order calls — the
source performs no queue write, so no re-queue action exists to record. -/
theorem worker_threshold_gates (env : WorkerEnv) (c : WorkerComment) :
    ((process_comment env c).any isVisionCall = true ↔
      ((nlpResultOf env.nlp).intent = some "buy" ∧
        (1/2 : ℚ) < (nlpResultOf env.nlp).score.getD 0)) ∧
    ((process_comment env c).any isOrderAction = true ↔
      (((nlpResultOf env.nlp).intent = some "buy" ∧
        (1/2 : ℚ) < (nlpResultOf env.nlp).score.getD 0) ∧
       pyTruthy (matchResultOf env.visionMatch).productId = true ∧
       (7/10 : ℚ) < (matchResultOf env.visionMatch).score.getD 0)) := by
  by_cases h1 : (nlpResultOf env.nlp).intent = some "buy" ∧
      (1/2 : ℚ) < (nlpResultOf env.nlp).score.getD 0
  · by_cases h2 : pyTruthy (matchResultOf env.visionMatch).productId = true ∧
        (7/10 : ℚ) < (matchResultOf env.visionMatch).score.getD 0
    · rw [process_comment, if_pos h1, if_pos h2]
      exact ⟨⟨fun _ => h1, fun _ => by simp [isVisionCall]⟩,
        ⟨fun _ => ⟨h1, h2⟩, fun _ => by simp [isOrderAction]⟩⟩
    · rw [process_comment, if_pos h1, if_neg h2]
      refine ⟨⟨fun _ => h1, fun _ => by simp [isVisionCall]⟩,
        ⟨fun h => absurd h (by simp [isOrderAction]),
         fun hr => absurd ⟨hr.2.1, hr.2.2⟩ h2⟩⟩
  · rw [process_comment, if_neg h1]
    exact ⟨⟨fun h => absurd h (by simp [isVisionCall]),
        fun hr => absurd hr h1⟩,
      ⟨fun h => absurd h (by simp [isOrderAction]),
       fun hr => absurd hr.1 h1⟩⟩

/-- Witness for C7: with a 0.9-score buy intent and a 0.8-score match the
worker both calls the matcher and creates an order; with score exactly
0.5 it does not call the matcher. -/
theorem worker_threshold_gates_witness :
    (process_comment
        ⟨.responded 200 ⟨some "buy", some (9/10)⟩,
         .responded 200 ⟨some "X", some (8/10)⟩, true⟩
        ⟨some "s1", some "c1", some "lo quiero"⟩).any isOrderAction =
      true ∧
    ¬ ((process_comment
        ⟨.responded 200 ⟨some "buy", some (1/2)⟩,
         .responded 200 ⟨some "X", some (8/10)⟩, true⟩
        ⟨some "s1", some "c1", some "lo quiero"⟩).any isVisionCall =
      true) :=
  ⟨(worker_threshold_gates
      ⟨.responded 200 ⟨some "buy", some (9/10)⟩,
       .responded 200 ⟨some "X", some (8/10)⟩, true⟩
      ⟨some "s1", some "c1", some "lo quiero"⟩).2.mpr
        ⟨⟨rfl, by norm_num [nlpResultOf]⟩, rfl,
          by norm_num [matchResultOf]⟩,
   fun h =>
     absurd ((worker_threshold_gates
        ⟨.responded 200 ⟨some "buy", some (1/2)⟩,
         .responded 200 ⟨some "X", some (8/10)⟩, true⟩
        ⟨some "s1", some "c1", some "lo quiero"⟩).1.mp h).2
       (by norm_num [nlpResultOf])⟩

theorem confirmBatchText_ne_empty (p : Product) (c : Int) :
    confirmBatchText p c ≠ "" := by
  intro h
  have hlen := congrArg String.length h
  have hpos : 0 < "¡Encontré el producto! ".length := by decide
  simp only [confirmBatchText, String.length_append, String.length_empty]
    at hlen
  omega

theorem confirmChatText_ne_empty (p : Product) (c : Int) :
    confirmChatText p c ≠ "" := by
  intro h
  have hlen := congrArg String.length h
  have hpos : 0 < "¡Encontré el producto! ".length := by decide
  simp only [confirmChatText, String.length_append, String.length_empty]
    at hlen
  omega

theorem batchIntentFlow_shape (env : PipelineEnv) (streamer : String)
    (firstTs : Nat) (cantidad : Int) :
    (∃ (pid : String) (p : Product) (fr : FrameRecord),
      findProduct env.products pid = some p ∧
      batchIntentFlow env streamer firstTs cantidad =
        (some (buildMatchedProduct p cantidad), true,
          confirmBatchText p cantidad,
          [ExtCall.vision fr.minio_url])) ∨
    ((batchIntentFlow env streamer firstTs cantidad).1 = none ∧
     (batchIntentFlow env streamer firstTs cantidad).2.1 = false ∧
     ((batchIntentFlow env streamer firstTs cantidad).2.2.1 =
        noMatchBatchText ∨
      (batchIntentFlow env streamer firstTs cantidad).2.2.1 =
        errorBatchText)) := by
  cases hfr : (if env.dbConnected then
      selectFrame env.frames streamer firstTs else none) with
  | none => right; simp [batchIntentFlow, hfr]
  | some fr =>
    cases hv : env.vision with
    | failure => right; simp [batchIntentFlow, hfr, hv]
    | badStatus n => right; simp [batchIntentFlow, hfr, hv]
    | success pid? =>
      cases pid? with
      | none => right; simp [batchIntentFlow, hfr, hv]
      | some pid =>
        by_cases hpid : pid = ""
        · right; simp [batchIntentFlow, hfr, hv, hpid]
        · cases hp : findProduct env.products pid with
          | none => right; simp [batchIntentFlow, hfr, hv, hpid, hp]
          | some p =>
            left
            refine ⟨pid, p, fr, hp, ?_⟩
            simp [batchIntentFlow, hfr, hv, hpid, hp]

theorem chatIntentFlow_shape (env : PipelineEnv) (streamer : String)
    (cantidad : Int) :
    (∃ (pid : String) (p : Product),
      findProduct env.products pid = some p ∧
      chatIntentFlow env streamer cantidad =
        (some (buildMatchedProduct p cantidad), true, [],
          confirmChatText p cantidad)) ∨
    ((chatIntentFlow env streamer cantidad).1 = none ∧
     (chatIntentFlow env streamer cantidad).2.1 = false ∧
     ((chatIntentFlow env streamer cantidad).2.2.2 = chatNoMatchText ∨
      (chatIntentFlow env streamer cantidad).2.2.2 = chatErrorText)) := by
  cases hfr : (if env.dbConnected then
      latestFrame env.frames streamer else none) with
  | none => right; simp [chatIntentFlow, hfr]
  | some fr =>
    cases hv : env.vision with
    | failure => right; simp [chatIntentFlow, hfr, hv]
    | badStatus n => right; simp [chatIntentFlow, hfr, hv]
    | success pid? =>
      cases pid? with
      | none => right; simp [chatIntentFlow, hfr, hv]
      | some pid =>
        by_cases hpid : pid = ""
        · right; simp [chatIntentFlow, hfr, hv, hpid]
        · cases hp : findProduct env.products pid with
          | none => right; simp [chatIntentFlow, hfr, hv, hpid, hp]
          | some p =>
            left
            exact ⟨pid, p, hp, by simp [chatIntentFlow, hfr, hv, hpid, hp]⟩

/-- C10: in every outcome of the chat and batched-processing operations,
`payment_ready` is true only when a matched product is present, and that
product is built from a catalog row with `total = price * cantidad`;
whenever no product is matched, `payment_ready` is false; and the
response text is never empty. -/
theorem outcome_payment_invariant (env : PipelineEnv) (cmsg : ChatMessage)
    (streamer user : String) (st : RedisState) :
    ((process_chat env cmsg).payment_ready = true →
      ∃ p ∈ env.products,
        (process_chat env cmsg).matched_product =
          some (buildMatchedProduct p (process_chat env cmsg).cantidad) ∧
        (buildMatchedProduct p (process_chat env cmsg).cantidad).total =
          p.price * ((process_chat env cmsg).cantidad : ℚ)) ∧
    ((process_chat env cmsg).matched_product = none →
      (process_chat env cmsg).payment_ready = false) ∧
    (process_chat env cmsg).response_text ≠ "" ∧
    ((process_user_queue env streamer user st).1.payment_ready = true →
      ∃ p ∈ env.products,
        (process_user_queue env streamer user st).1.matched_product =
          some (buildMatchedProduct p
            (process_user_queue env streamer user st).1.cantidad) ∧
        (buildMatchedProduct p
            (process_user_queue env streamer user st).1.cantidad).total =
          p.price *
            ((process_user_queue env streamer user st).1.cantidad : ℚ)) ∧
    ((process_user_queue env streamer user st).1.matched_product = none →
      (process_user_queue env streamer user st).1.payment_ready = false) ∧
    (process_user_queue env streamer user st).1.response_text ≠ "" := by
  have hchat : (process_chat env cmsg).matched_product =
      (if (parseWebhook env.webhook).1 = "yes"
        then chatIntentFlow env cmsg.streamer_id (parseWebhook env.webhook).2
        else (none, false, [], defaultReplyText)).1 ∧
      (process_chat env cmsg).payment_ready =
      (if (parseWebhook env.webhook).1 = "yes"
        then chatIntentFlow env cmsg.streamer_id (parseWebhook env.webhook).2
        else (none, false, [], defaultReplyText)).2.1 ∧
      (process_chat env cmsg).response_text =
      (if (parseWebhook env.webhook).1 = "yes"
        then chatIntentFlow env cmsg.streamer_id (parseWebhook env.webhook).2
        else (none, false, [], defaultReplyText)).2.2.2 ∧
      (process_chat env cmsg).cantidad = (parseWebhook env.webhook).2 :=
    ⟨rfl, rfl, rfl, rfl⟩
  obtain ⟨hm, hpr, hrt, hcant⟩ := hchat
  have chatSide :
      ((process_chat env cmsg).payment_ready = true →
        ∃ p ∈ env.products,
          (process_chat env cmsg).matched_product =
            some (buildMatchedProduct p (process_chat env cmsg).cantidad) ∧
          (buildMatchedProduct p (process_chat env cmsg).cantidad).total =
            p.price * ((process_chat env cmsg).cantidad : ℚ)) ∧
      ((process_chat env cmsg).matched_product = none →
        (process_chat env cmsg).payment_ready = false) ∧
      (process_chat env cmsg).response_text ≠ "" := by
    rw [hm, hpr, hrt, hcant]
    by_cases hy : (parseWebhook env.webhook).1 = "yes"
    · rw [if_pos hy]
      rcases chatIntentFlow_shape env cmsg.streamer_id
          (parseWebhook env.webhook).2 with ⟨pid, p, hp, heq⟩ | ⟨h1, h2, h3⟩
      · rw [heq]
        exact ⟨fun _ => ⟨p, List.mem_of_find?_eq_some hp, rfl, rfl⟩,
          fun h => by simp at h, confirmChatText_ne_empty p _⟩
      · refine ⟨?_, fun _ => h2, ?_⟩
        · intro ht; rw [h2] at ht; exact absurd ht (by decide)
        · rcases h3 with h3 | h3 <;> rw [h3] <;> decide
    · rw [if_neg hy]
      exact ⟨fun ht => absurd ht (by decide), fun _ => rfl, by decide⟩
  have batchSide :
      ((process_user_queue env streamer user st).1.payment_ready = true →
        ∃ p ∈ env.products,
          (process_user_queue env streamer user st).1.matched_product =
            some (buildMatchedProduct p
              (process_user_queue env streamer user st).1.cantidad) ∧
          (buildMatchedProduct p
              (process_user_queue env streamer user st).1.cantidad).total =
            p.price *
              ((process_user_queue env streamer user st).1.cantidad : ℚ)) ∧
      ((process_user_queue env streamer user st).1.matched_product = none →
        (process_user_queue env streamer user st).1.payment_ready = false) ∧
      (process_user_queue env streamer user st).1.response_text ≠ "" := by
    cases hqe : getQueue st (queueKey streamer user) with
    | nil =>
      have hres : (process_user_queue env streamer user st).1 =
          ⟨user, streamer, 0, "no", 0, none, false, emptyQueueText⟩ := by
        simp [process_user_queue, hqe]
      rw [hres]
      exact ⟨fun ht => by simp at ht, fun _ => rfl,
        by show emptyQueueText ≠ ""; decide⟩
    | cons a as =>
      by_cases hy : (parseWebhook env.webhook).1 = "yes"
      · have hres : (process_user_queue env streamer user st).1 =
            ⟨user, streamer, (a :: as).length, (parseWebhook env.webhook).1,
              (parseWebhook env.webhook).2,
              (batchIntentFlow env streamer
                ((firstTimestamp (a :: as)).getD env.now)
                (parseWebhook env.webhook).2).1,
              (batchIntentFlow env streamer
                ((firstTimestamp (a :: as)).getD env.now)
                (parseWebhook env.webhook).2).2.1,
              (batchIntentFlow env streamer
                ((firstTimestamp (a :: as)).getD env.now)
                (parseWebhook env.webhook).2).2.2.1⟩ := by
          simp [process_user_queue, hqe, hy]
        rw [hres]
        dsimp only
        rcases batchIntentFlow_shape env streamer
            ((firstTimestamp (a :: as)).getD env.now)
            (parseWebhook env.webhook).2 with
          ⟨pid, p, fr, hp, heq⟩ | ⟨h1, h2, h3⟩
        · rw [heq]
          exact ⟨fun _ => ⟨p, List.mem_of_find?_eq_some hp, rfl, rfl⟩,
            fun h => by simp at h, confirmBatchText_ne_empty p _⟩
        · refine ⟨?_, fun _ => h2, ?_⟩
          · intro ht; rw [h2] at ht; exact absurd ht (by decide)
          · rcases h3 with h3 | h3 <;> rw [h3] <;> decide
      · have hres : (process_user_queue env streamer user st).1 =
            ⟨user, streamer, (a :: as).length, (parseWebhook env.webhook).1,
              (parseWebhook env.webhook).2, none, false, defaultReplyText⟩ := by
          simp [process_user_queue, hqe, hy]
        rw [hres]
        exact ⟨fun ht => by simp at ht, fun _ => rfl,
          by show defaultReplyText ≠ ""; decide⟩
  exact ⟨chatSide.1, chatSide.2.1, chatSide.2.2, batchSide.1, batchSide.2.1,
    batchSide.2.2⟩

/-- Witness for C10 at a payment-ready outcome: the matched product is
built from the catalog row with total = price * cantidad. -/
theorem outcome_payment_invariant_witness :
    ∃ p ∈ ([⟨"p1", "Gorra", 50, "d", "i"⟩] : List Product),
      (process_user_queue
          ⟨.success (some "yes") (some 3), .success (some "p1"),
            [⟨"s1", 4, "u4"⟩], [⟨"p1", "Gorra", 50, "d", "i"⟩], true, 9⟩
          "s1" "c1"
          ⟨[], [(queueKey "s1" "c1",
            [QueueEntry.parsed "quiero" (some 6)])]⟩).1.matched_product =
        some (buildMatchedProduct p
          (process_user_queue
            ⟨.success (some "yes") (some 3), .success (some "p1"),
              [⟨"s1", 4, "u4"⟩], [⟨"p1", "Gorra", 50, "d", "i"⟩], true, 9⟩
            "s1" "c1"
            ⟨[], [(queueKey "s1" "c1",
              [QueueEntry.parsed "quiero" (some 6)])]⟩).1.cantidad) ∧
      (buildMatchedProduct p
          (process_user_queue
            ⟨.success (some "yes") (some 3), .success (some "p1"),
              [⟨"s1", 4, "u4"⟩], [⟨"p1", "Gorra", 50, "d", "i"⟩], true, 9⟩
            "s1" "c1"
            ⟨[], [(queueKey "s1" "c1",
              [QueueEntry.parsed "quiero" (some 6)])]⟩).1.cantidad).total =
        p.price *
          ((process_user_queue
            ⟨.success (some "yes") (some 3), .success (some "p1"),
              [⟨"s1", 4, "u4"⟩], [⟨"p1", "Gorra", 50, "d", "i"⟩], true, 9⟩
            "s1" "c1"
            ⟨[], [(queueKey "s1" "c1",
              [QueueEntry.parsed "quiero" (some 6)])]⟩).1.cantidad : ℚ) :=
  (outcome_payment_invariant
    ⟨.success (some "yes") (some 3), .success (some "p1"),
      [⟨"s1", 4, "u4"⟩], [⟨"p1", "Gorra", 50, "d", "i"⟩], true, 9⟩
    ⟨"c1", "s1", "hola"⟩ "s1" "c1"
    ⟨[], [(queueKey "s1" "c1",
      [QueueEntry.parsed "quiero" (some 6)])]⟩).2.2.2.1 rfl

end TikTokSales
